import Mathlib

/-!
Verification of the income-tax Premium Tax Credit reconciliation engine
(`income_tax` package): a shallow embedding of `custom_types.py`,
`models/data_models.py` and `models/year2022.py`, followed by theorems
settling the specification claims.

Conventions of the embedding:
* Monetary values (`WholeDollar`) are integers (`ℤ`): the Python type is a
  float passed through `make_whole_number` (truncation) at validation, so
  every stored value is integral and arithmetic among them is exact.
* Fractions and divisions are computed in `ℚ`.
* Python's builtin `round(x, 0)` (round half to even) is `pyRound`.
* A computation that can raise (`assert`, missing attribute, failed
  registry resolution) returns an `Option`, `none` meaning the exception.
-/

namespace IncomeTax

/-! ## Definitions: the embedded program -/

/-- Source `custom_types.make_whole_number`: `int(value)`, truncation toward zero
(floor for nonnegative values, negated floor of the negation otherwise). -/
def make_whole_number (value : ℚ) : ℤ :=
  if 0 ≤ value then ⌊value⌋ else -⌊-value⌋

/-- Source `custom_types.SSN`, a secret wrapper around the raw string. -/
structure SSN where
  secret_value : String
deriving DecidableEq

/-- Source `SSN._display`: the fixed mask shown for any SSN. -/
def SSN.display (_ : SSN) : String :=
  "***-**-****"

/-- Python's builtin `round(q, 0)`: round to nearest, ties to even. -/
def pyRound (q : ℚ) : ℤ :=
  if q - ⌊q⌋ < 1/2 then ⌊q⌋
  else if 1/2 < q - ⌊q⌋ then ⌊q⌋ + 1
  else if ⌊q⌋ % 2 = 0 then ⌊q⌋ else ⌊q⌋ + 1

/-- Source `data_models.StateOfResidenceEnum`. -/
inductive StateOfResidenceEnum where
  | CONTIGUOUS_48_AND_DC
  | ALASKA
  | HAWAII
deriving DecidableEq

/-- Source `data_models.PovertyLineTable`: the `values` mapping is an association
list from family size to poverty-line dollars. -/
structure PovertyLineTable where
  state_of_residence : StateOfResidenceEnum
  values : List (ℤ × ℤ)
  additional_person_extra : ℤ

/-- Source `PovertyLineTable.get_poverty_rate`: direct lookup, and on a `KeyError`
extrapolate from the largest tabulated size. -/
def PovertyLineTable.get_poverty_rate (t : PovertyLineTable) (tax_family_size : ℤ) : ℤ :=
  match t.values.lookup tax_family_size with
  | some v => v
  | none =>
      let largest_size := ((t.values.map Prod.fst).max?).getD 0
      let largest_value := (t.values.lookup largest_size).getD 0
      let additional_persons := tax_family_size - largest_size
      let adder := additional_persons * t.additional_person_extra
      largest_value + adder

/-- Source `PovertyLines.get_state_table`: resolve a residency category to its
unique table; `none` models the `ValueError` raised on zero or multiple
matches. -/
def PovertyLines.get_state_table (root : List PovertyLineTable)
    (state_of_residence : StateOfResidenceEnum) : Option PovertyLineTable :=
  match root.filter (fun t => t.state_of_residence = state_of_residence) with
  | [t] => some t
  | _ => none

/-- Source `PovertyLines.get_poverty_rate`. -/
def PovertyLines.get_poverty_rate (root : List PovertyLineTable)
    (state_of_residence : StateOfResidenceEnum) (tax_family_size : ℤ) : Option ℤ :=
  (PovertyLines.get_state_table root state_of_residence).map
    (fun t => t.get_poverty_rate tax_family_size)

/-- Source `data_models.CONTIGUOUS_48_AND_DC`. -/
def CONTIGUOUS_48_AND_DC : List (ℤ × ℤ) :=
  [(1, 13590), (2, 18310), (3, 23030), (4, 27750),
   (5, 32470), (6, 37190), (7, 41910), (8, 46630)]

/-- Source `data_models.CONTIGUOUS_48_AND_DC_EXTRA`. -/
def CONTIGUOUS_48_AND_DC_EXTRA : ℤ := 4720

/-- Source `data_models.ALASKA`. -/
def ALASKA : List (ℤ × ℤ) :=
  [(1, 16990), (2, 22890), (3, 28790), (4, 34690),
   (5, 40590), (6, 46490), (7, 52390), (8, 58290)]

/-- Source `data_models.ALASKA_EXTRA`. -/
def ALASKA_EXTRA : ℤ := 5900

/-- Source `data_models.HAWAII`. -/
def HAWAII : List (ℤ × ℤ) :=
  [(1, 15630), (2, 21060), (3, 26490), (4, 31920),
   (5, 37350), (6, 42780), (7, 48210), (8, 53640)]

/-- Source `data_models.HAWAII_EXTRA`. -/
def HAWAII_EXTRA : ℤ := 5430

/-- Source `data_models.poverty_lines`, the process-wide registry. -/
def poverty_lines : List PovertyLineTable :=
  [{ state_of_residence := .CONTIGUOUS_48_AND_DC,
     values := CONTIGUOUS_48_AND_DC,
     additional_person_extra := CONTIGUOUS_48_AND_DC_EXTRA },
   { state_of_residence := .ALASKA,
     values := ALASKA,
     additional_person_extra := ALASKA_EXTRA },
   { state_of_residence := .HAWAII,
     values := HAWAII,
     additional_person_extra := HAWAII_EXTRA }]

set_option maxHeartbeats 2000000 in
/-- Source `data_models.applicable_figures_dict`: percent of poverty line to
applicable figure (contribution rate), entries transcribed verbatim with
each rate `0.wxyz` written as the rational `wxyz/10000`. -/
def applicable_figures_dict : List (ℤ × ℚ) :=
 [(150, 0/10000),
  (151, 4/10000),
  (152, 8/10000),
  (153, 12/10000),
  (154, 16/10000),
  (155, 20/10000),
  (156, 24/10000),
  (157, 28/10000),
  (158, 32/10000),
  (159, 36/10000),
  (160, 40/10000),
  (161, 44/10000),
  (162, 48/10000),
  (163, 52/10000),
  (164, 56/10000),
  (165, 60/10000),
  (166, 64/10000),
  (167, 68/10000),
  (168, 72/10000),
  (169, 76/10000),
  (170, 80/10000),
  (171, 84/10000),
  (172, 88/10000),
  (173, 92/10000),
  (174, 96/10000),
  (175, 100/10000),
  (176, 104/10000),
  (177, 108/10000),
  (178, 112/10000),
  (179, 116/10000),
  (180, 120/10000),
  (181, 124/10000),
  (182, 128/10000),
  (183, 132/10000),
  (184, 136/10000),
  (185, 140/10000),
  (186, 144/10000),
  (187, 148/10000),
  (188, 152/10000),
  (189, 156/10000),
  (190, 160/10000),
  (191, 164/10000),
  (192, 168/10000),
  (193, 172/10000),
  (194, 176/10000),
  (195, 180/10000),
  (196, 184/10000),
  (197, 188/10000),
  (198, 192/10000),
  (199, 196/10000),
  (200, 200/10000),
  (201, 204/10000),
  (202, 208/10000),
  (203, 212/10000),
  (204, 216/10000),
  (205, 220/10000),
  (206, 224/10000),
  (207, 228/10000),
  (208, 232/10000),
  (209, 236/10000),
  (210, 240/10000),
  (211, 244/10000),
  (212, 248/10000),
  (213, 252/10000),
  (214, 256/10000),
  (215, 260/10000),
  (216, 264/10000),
  (217, 268/10000),
  (218, 272/10000),
  (219, 276/10000),
  (220, 280/10000),
  (221, 284/10000),
  (222, 288/10000),
  (223, 292/10000),
  (224, 296/10000),
  (225, 300/10000),
  (226, 304/10000),
  (227, 308/10000),
  (228, 312/10000),
  (229, 316/10000),
  (230, 320/10000),
  (231, 324/10000),
  (232, 328/10000),
  (233, 332/10000),
  (234, 336/10000),
  (235, 340/10000),
  (236, 344/10000),
  (237, 348/10000),
  (238, 352/10000),
  (239, 356/10000),
  (240, 360/10000),
  (241, 364/10000),
  (242, 368/10000),
  (243, 372/10000),
  (244, 376/10000),
  (245, 380/10000),
  (246, 384/10000),
  (247, 388/10000),
  (248, 392/10000),
  (249, 396/10000),
  (250, 400/10000),
  (251, 404/10000),
  (252, 408/10000),
  (253, 412/10000),
  (254, 416/10000),
  (255, 420/10000),
  (256, 424/10000),
  (257, 428/10000),
  (258, 432/10000),
  (259, 436/10000),
  (260, 440/10000),
  (261, 444/10000),
  (262, 448/10000),
  (263, 452/10000),
  (264, 456/10000),
  (265, 460/10000),
  (266, 464/10000),
  (267, 468/10000),
  (268, 472/10000),
  (269, 476/10000),
  (270, 480/10000),
  (271, 484/10000),
  (272, 488/10000),
  (273, 492/10000),
  (274, 496/10000),
  (275, 500/10000),
  (276, 504/10000),
  (277, 508/10000),
  (278, 512/10000),
  (279, 516/10000),
  (280, 520/10000),
  (281, 524/10000),
  (282, 528/10000),
  (283, 532/10000),
  (284, 536/10000),
  (285, 540/10000),
  (286, 544/10000),
  (287, 548/10000),
  (288, 552/10000),
  (289, 556/10000),
  (290, 560/10000),
  (291, 564/10000),
  (292, 568/10000),
  (293, 572/10000),
  (294, 576/10000),
  (295, 580/10000),
  (296, 584/10000),
  (297, 588/10000),
  (298, 592/10000),
  (299, 596/10000),
  (300, 600/10000),
  (301, 603/10000),
  (302, 605/10000),
  (303, 608/10000),
  (304, 610/10000),
  (305, 613/10000),
  (306, 615/10000),
  (307, 618/10000),
  (308, 620/10000),
  (309, 623/10000),
  (310, 625/10000),
  (311, 628/10000),
  (312, 630/10000),
  (313, 633/10000),
  (314, 635/10000),
  (315, 638/10000),
  (316, 640/10000),
  (317, 643/10000),
  (318, 645/10000),
  (319, 648/10000),
  (320, 650/10000),
  (321, 653/10000),
  (322, 655/10000),
  (323, 658/10000),
  (324, 660/10000),
  (325, 663/10000),
  (326, 665/10000),
  (327, 668/10000),
  (328, 670/10000),
  (329, 673/10000),
  (330, 675/10000),
  (331, 678/10000),
  (332, 680/10000),
  (333, 683/10000),
  (334, 685/10000),
  (335, 688/10000),
  (336, 690/10000),
  (337, 693/10000),
  (338, 695/10000),
  (339, 698/10000),
  (340, 700/10000),
  (341, 703/10000),
  (342, 705/10000),
  (343, 708/10000),
  (344, 710/10000),
  (345, 713/10000),
  (346, 715/10000),
  (347, 718/10000),
  (348, 720/10000),
  (349, 723/10000),
  (350, 725/10000),
  (351, 728/10000),
  (352, 730/10000),
  (353, 733/10000),
  (354, 735/10000),
  (355, 738/10000),
  (356, 740/10000),
  (357, 743/10000),
  (358, 745/10000),
  (359, 748/10000),
  (360, 750/10000),
  (361, 753/10000),
  (362, 755/10000),
  (363, 758/10000),
  (364, 760/10000),
  (365, 763/10000),
  (366, 765/10000),
  (367, 768/10000),
  (368, 770/10000),
  (369, 773/10000),
  (370, 775/10000),
  (371, 778/10000),
  (372, 780/10000),
  (373, 783/10000),
  (374, 785/10000),
  (375, 788/10000),
  (376, 790/10000),
  (377, 793/10000),
  (378, 795/10000),
  (379, 798/10000),
  (380, 800/10000),
  (381, 803/10000),
  (382, 805/10000),
  (383, 808/10000),
  (384, 810/10000),
  (385, 813/10000),
  (386, 815/10000),
  (387, 818/10000),
  (388, 820/10000),
  (389, 823/10000),
  (390, 825/10000),
  (391, 828/10000),
  (392, 830/10000),
  (393, 833/10000),
  (394, 835/10000),
  (395, 838/10000),
  (396, 840/10000),
  (397, 843/10000),
  (398, 845/10000),
  (399, 848/10000),
  (400, 850/10000)]

/-- The `min(self.figures.keys())` computation of `ApplicableFigures.get_figure`. -/
def ApplicableFigures.min_percent (figures : List (ℤ × ℚ)) : ℤ :=
  ((figures.map Prod.fst).min?).getD 0

/-- The `max(self.figures.keys())` computation of `ApplicableFigures.get_figure`. -/
def ApplicableFigures.max_percent (figures : List (ℤ × ℚ)) : ℤ :=
  ((figures.map Prod.fst).max?).getD 0

/-- Source `ApplicableFigures.get_figure`: clamp to the bounded key domain, then a
direct dictionary lookup. -/
def ApplicableFigures.get_figure (figures : List (ℤ × ℚ)) (percent : ℤ) : ℚ :=
  if percent ≤ ApplicableFigures.min_percent figures then
    (figures.lookup (ApplicableFigures.min_percent figures)).getD 0
  else if ApplicableFigures.max_percent figures < percent then
    (figures.lookup (ApplicableFigures.max_percent figures)).getD 0
  else
    (figures.lookup percent).getD 0

/-- Source `data_models.ApplicableFigures` instance `applicable_figures`. -/
def applicable_figures : List (ℤ × ℚ) :=
  applicable_figures_dict

/-- Source `year2022.MonthlyCalculationRow`: one month's inputs (columns a, b, c, f). -/
structure MonthlyCalculationRow where
  a : ℤ
  b : ℤ
  c : ℤ
  f : ℤ
deriving DecidableEq

/-- Source `MonthlyCalculationRow.monthly_max_premium_assist` (lines 12-23(d)). -/
def MonthlyCalculationRow.monthly_max_premium_assist (r : MonthlyCalculationRow) : ℤ :=
  let assistance := r.b - r.c
  if 0 < assistance then assistance else 0

/-- Source `MonthlyCalculationRow.monthly_allowed_tax_credit` (lines 12-23(e)). -/
def MonthlyCalculationRow.monthly_allowed_tax_credit (r : MonthlyCalculationRow) : ℤ :=
  min r.a r.monthly_max_premium_assist

/-- Source `year2022.MonthlyCalculationTable`: twelve optional month slots.

Each slot is `Option (Option MonthlyCalculationRow)` to mirror pydantic's
distinction between a field that was never supplied (`none`: absent from
`model_fields_set`, attribute value `None`) and a field explicitly supplied
at construction (`some v`: member of `model_fields_set`, attribute value
`v`, which may itself be `None` = `some none`). -/
structure MonthlyCalculationTable where
  january : Option (Option MonthlyCalculationRow) := none
  february : Option (Option MonthlyCalculationRow) := none
  march : Option (Option MonthlyCalculationRow) := none
  april : Option (Option MonthlyCalculationRow) := none
  may : Option (Option MonthlyCalculationRow) := none
  june : Option (Option MonthlyCalculationRow) := none
  july : Option (Option MonthlyCalculationRow) := none
  august : Option (Option MonthlyCalculationRow) := none
  september : Option (Option MonthlyCalculationRow) := none
  october : Option (Option MonthlyCalculationRow) := none
  november : Option (Option MonthlyCalculationRow) := none
  december : Option (Option MonthlyCalculationRow) := none
deriving DecidableEq

/-- The twelve slots in `model_fields` declaration order. -/
def MonthlyCalculationTable.slots (t : MonthlyCalculationTable) :
    List (Option (Option MonthlyCalculationRow)) :=
  [t.january, t.february, t.march, t.april, t.may, t.june,
   t.july, t.august, t.september, t.october, t.november, t.december]

/-- The loop of `MonthlyCalculationTable.total_tax_credit`: iterate over
`model_fields` (every slot, supplied or not), skip attribute values that
are `None`, and accumulate `monthly_allowed_tax_credit`. -/
def creditFold : List (Option (Option MonthlyCalculationRow)) → ℤ → ℤ
  | [], credit_sum => credit_sum
  | s :: rest, credit_sum =>
      match s.join with
      | none => creditFold rest credit_sum
      | some r => creditFold rest (credit_sum + r.monthly_allowed_tax_credit)

/-- Source `MonthlyCalculationTable.total_tax_credit`. -/
def MonthlyCalculationTable.total_tax_credit (t : MonthlyCalculationTable) : ℤ :=
  creditFold t.slots 0

/-- The loop of `MonthlyCalculationTable.total_advance_payment`: iterate
over `model_fields_set` (only slots explicitly supplied) and accumulate
column f; a supplied slot holding `None` raises `AttributeError`
(`None.f`), modelled as `none`. -/
def advanceFold : List (Option (Option MonthlyCalculationRow)) → ℤ → Option ℤ
  | [], advance_sum => some advance_sum
  | s :: rest, advance_sum =>
      match s with
      | none => advanceFold rest advance_sum
      | some none => none
      | some (some r) => advanceFold rest (advance_sum + r.f)

/-- Source `MonthlyCalculationTable.total_advance_payment`. -/
def MonthlyCalculationTable.total_advance_payment (t : MonthlyCalculationTable) : Option ℤ :=
  advanceFold t.slots 0

/-- Source `year2022.Form8962`: the raw (stored) fields of the aggregate root. -/
structure Form8962 where
  name_on_return : String
  ssn : SSN
  tax_family_size : ℤ
  modified_agi : ℤ
  dependents_modified_agi : Option ℤ := none
  state_of_residence : StateOfResidenceEnum
  another_taxpayer_or_alternative_calculation : Bool
  line_10 : Bool
  annual_enrollment_premiums : Option ℤ := none
  annual_slcsp_premium : Option ℤ := none
  annual_advance_payment : Option ℤ := none
  monthly_calculation : Option MonthlyCalculationTable := none
deriving DecidableEq

/-- The regex `^\\d{3}-\\d{2}-\\d{4}$|^\\d{9}$` of
`Form8962.validate_ssn_pattern`, decided on the raw string. -/
def ssn_pattern_ok (s : String) : Bool :=
  match s.toList with
  | [a, b, c, d, e, f, g, h, i] =>
      [a, b, c, d, e, f, g, h, i].all Char.isDigit
  | [a, b, c, x, d, e, y, f, g, h, i] =>
      x = '-' && y = '-' && [a, b, c, d, e, f, g, h, i].all Char.isDigit
  | _ => false

/-- Pydantic construction of a `Form8962` from raw field values: the only
validator that runs is `validate_ssn_pattern`, which raises `ValueError`
(modelled `none`) when the regex does not match. -/
def Form8962.construct (f : Form8962) : Option Form8962 :=
  if ssn_pattern_ok f.ssn.secret_value then some f else none

/-- Source `Form8962.household_income` (line 3). -/
def Form8962.household_income (f : Form8962) : ℤ :=
  let income := f.modified_agi
  match f.dependents_modified_agi with
  | none => income
  | some d => income + d

/-- Source `Form8962.poverty_line` (line 4); the registry resolution for the three
enum values always succeeds, so the default is never taken. -/
def Form8962.poverty_line (f : Form8962) : ℤ :=
  (PovertyLines.get_poverty_rate poverty_lines f.state_of_residence f.tax_family_size).getD 0

/-- Source `Form8962.percent_of_poverty_line` (line 5). -/
def Form8962.percent_of_poverty_line (f : Form8962) : ℤ :=
  let percentage : ℚ := (f.household_income : ℚ) / (f.poverty_line : ℚ)
  if percentage ≤ 4 then make_whole_number (percentage * 100) else 401

/-- Source `Form8962.applicable_figure` (line 7). -/
def Form8962.applicable_figure (f : Form8962) : ℚ :=
  ApplicableFigures.get_figure applicable_figures f.percent_of_poverty_line

/-- Source `Form8962.annual_contribution` (line 8a): `int(round(income * figure, 0))`. -/
def Form8962.annual_contribution (f : Form8962) : ℤ :=
  pyRound ((f.household_income : ℚ) * f.applicable_figure)

/-- Source `Form8962.monthly_contribution` (line 8b): `int(round(annual / 12, 0))`. -/
def Form8962.monthly_contribution (f : Form8962) : ℤ :=
  pyRound ((f.annual_contribution : ℚ) / 12)

/-- Source `Form8962.line_11_c`. -/
def Form8962.line_11_c (f : Form8962) : Option ℤ :=
  if f.line_10 then some f.annual_contribution else none

/-- Source `Form8962.annual_max_premium_assist` (line 11(d)): on the annual path
the two `assert` statements can fail (`none`); otherwise the value is
`Some` of the Python return (`some none` when `line_10` is false). -/
def Form8962.annual_max_premium_assist (f : Form8962) : Option (Option ℤ) :=
  if f.line_10 then
    match f.line_11_c, f.annual_slcsp_premium with
    | some c, some s =>
        let assistance := c - s
        some (some (if 0 < assistance then assistance else 0))
    | _, _ => none
  else some none

/-- Source `Form8962.annual_allowed_tax_credit` (line 11(e)). -/
def Form8962.annual_allowed_tax_credit (f : Form8962) : Option (Option ℤ) :=
  if f.line_10 then
    match f.annual_enrollment_premiums, f.annual_max_premium_assist with
    | some e, some (some m) => some (some (min e m))
    | _, _ => none
  else some none

/-- Source `Form8962.total_tax_credit` (line 24): `none` models an exception
(a failed `assert` or one propagated from `annual_allowed_tax_credit`). -/
def Form8962.total_tax_credit (f : Form8962) : Option ℤ :=
  match f.annual_allowed_tax_credit with
  | none => none
  | some (some v) => some v
  | some none =>
      match f.monthly_calculation with
      | none => none
      | some t => some t.total_tax_credit

/-- Source `Form8962.total_advance_payment` (line 25): when the optional
`annual_advance_payment` is present it is returned directly; otherwise the
monthly table must be present (`assert`) and its total is used. -/
def Form8962.total_advance_payment (f : Form8962) : Option ℤ :=
  match f.annual_advance_payment with
  | some v => some v
  | none =>
      match f.monthly_calculation with
      | none => none
      | some t => t.total_advance_payment

/-- Source `Form8962.net_tax_credit` (line 26): outer `none` models an exception
in computing the totals; inner `none` is the Python `None` returned when
the advance payment exceeds the credit. -/
def Form8962.net_tax_credit (f : Form8962) : Option (Option ℤ) :=
  match f.total_tax_credit, f.total_advance_payment with
  | some total_tax_credit, some total_advance_payment =>
      if total_advance_payment < total_tax_credit then
        some (some (total_tax_credit - total_advance_payment))
      else if total_tax_credit = total_advance_payment then
        some (some 0)
      else
        some none
  | _, _ => none

/-! ### General lemmas about association-list lookups -/

/-- The keys of an association list are the consecutive integers starting
at `k`. -/
def consecutiveFrom {α : Type} (k : ℤ) : List (ℤ × α) → Bool
  | [] => true
  | (a, _) :: rest => a == k && consecutiveFrom (k + 1) rest

/-! ### Evaluated facts about the poverty-line registry -/

/-- The tabulated `values` dictionary of each residency category. -/
def state_values : StateOfResidenceEnum → List (ℤ × ℤ)
  | .CONTIGUOUS_48_AND_DC => CONTIGUOUS_48_AND_DC
  | .ALASKA => ALASKA
  | .HAWAII => HAWAII

/-- The per-extra-person increment of each residency category. -/
def state_extra : StateOfResidenceEnum → ℤ
  | .CONTIGUOUS_48_AND_DC => CONTIGUOUS_48_AND_DC_EXTRA
  | .ALASKA => ALASKA_EXTRA
  | .HAWAII => HAWAII_EXTRA

/-! ### Concrete forms used as test vectors -/

/-- The demo scenario of the source (`year2022.py` main block) and of the
spec's end-to-end test: family of four in the contiguous states, modified
AGI 77194, monthly path. -/
def F1 : Form8962 :=
  { name_on_return := "Karl Wooster"
    ssn := ⟨"123-45-6789"⟩
    tax_family_size := 4
    modified_agi := 77194
    state_of_residence := .CONTIGUOUS_48_AND_DC
    another_taxpayer_or_alternative_calculation := false
    line_10 := false }

/-- A monthly-path form whose annual contribution of 78 divides by 12 into
an exact half (6.5): family of one, contiguous states, modified AGI 21700. -/
def F3 : Form8962 :=
  { name_on_return := "A"
    ssn := ⟨"123-45-6789"⟩
    tax_family_size := 1
    modified_agi := 21700
    state_of_residence := .CONTIGUOUS_48_AND_DC
    another_taxpayer_or_alternative_calculation := false
    line_10 := false }

/-- A form whose product income * figure is an exact half (2634.5, with an
exactly representable rate of 0.0625): family of one, modified AGI 42152. -/
def FA : Form8962 :=
  { name_on_return := "B"
    ssn := ⟨"123-45-6789"⟩
    tax_family_size := 1
    modified_agi := 42152
    state_of_residence := .CONTIGUOUS_48_AND_DC
    another_taxpayer_or_alternative_calculation := false
    line_10 := false }

/-- A form whose income is more than four times the poverty line. -/
def FS : Form8962 :=
  { name_on_return := "C"
    ssn := ⟨"123-45-6789"⟩
    tax_family_size := 1
    modified_agi := 200000
    state_of_residence := .CONTIGUOUS_48_AND_DC
    another_taxpayer_or_alternative_calculation := false
    line_10 := false }

/-- A monthly table with a single populated month (January, 100 advance). -/
def T2 : MonthlyCalculationTable :=
  { january := some (some { a := 700, b := 500, c := 329, f := 100 }) }

/-- A monthly-path form (`line_10 = false`, monthly table present) that was
nevertheless given the optional `annual_advance_payment` input. -/
def F2 : Form8962 :=
  { name_on_return := "D"
    ssn := ⟨"123-45-6789"⟩
    tax_family_size := 4
    modified_agi := 77194
    state_of_residence := .CONTIGUOUS_48_AND_DC
    another_taxpayer_or_alternative_calculation := false
    line_10 := false
    annual_advance_payment := some 500
    monthly_calculation := some T2 }

/-- The same monthly-path form without the stray annual field. -/
def F2b : Form8962 :=
  { name_on_return := "D"
    ssn := ⟨"123-45-6789"⟩
    tax_family_size := 4
    modified_agi := 77194
    state_of_residence := .CONTIGUOUS_48_AND_DC
    another_taxpayer_or_alternative_calculation := false
    line_10 := false
    monthly_calculation := some T2 }

/-- A form violating two of the spec's claimed construction rules: tax
family size 0, and the annual path selected with all annual figures
missing; its SSN is well-formed. -/
def F5 : Form8962 :=
  { name_on_return := "E"
    ssn := ⟨"123456789"⟩
    tax_family_size := 0
    modified_agi := 100
    state_of_residence := .CONTIGUOUS_48_AND_DC
    another_taxpayer_or_alternative_calculation := false
    line_10 := true }

/-- Monthly-path form whose credit (1000) exceeds its advance (600). -/
def G1 : Form8962 :=
  { name_on_return := "G1"
    ssn := ⟨"123-45-6789"⟩
    tax_family_size := 4
    modified_agi := 77194
    state_of_residence := .CONTIGUOUS_48_AND_DC
    another_taxpayer_or_alternative_calculation := false
    line_10 := false
    monthly_calculation := some
      { january := some (some { a := 1000, b := 1600, c := 600, f := 600 }) } }

/-- Monthly-path form whose credit equals its advance (800). -/
def G2 : Form8962 :=
  { name_on_return := "G2"
    ssn := ⟨"123-45-6789"⟩
    tax_family_size := 4
    modified_agi := 77194
    state_of_residence := .CONTIGUOUS_48_AND_DC
    another_taxpayer_or_alternative_calculation := false
    line_10 := false
    monthly_calculation := some
      { january := some (some { a := 800, b := 900, c := 100, f := 800 }) } }

/-- Monthly-path form whose credit (400) is below its advance (900). -/
def G3 : Form8962 :=
  { name_on_return := "G3"
    ssn := ⟨"123-45-6789"⟩
    tax_family_size := 4
    modified_agi := 77194
    state_of_residence := .CONTIGUOUS_48_AND_DC
    another_taxpayer_or_alternative_calculation := false
    line_10 := false
    monthly_calculation := some
      { january := some (some { a := 400, b := 500, c := 100, f := 900 }) } }

/-- A table whose only supplied slot was explicitly given as `None`. -/
def T7 : MonthlyCalculationTable :=
  { january := some none }

/-- A table with two populated slots, January and March. -/
def T7b : MonthlyCalculationTable :=
  { january := some (some { a := 700, b := 500, c := 329, f := 100 })
    march := some (some { a := 600, b := 450, c := 329, f := 120 }) }

/-- Modelled from the spec: `round_half_up`, "standard rounding to the
nearest whole dollar" in which "an exact .5 fraction always rounds away
from zero". Stated only to compare the spec's claimed rounding with the
code's `pyRound`; the source never computes this function. -/
def round_half_up (q : ℚ) : ℤ :=
  if 0 ≤ q then ⌊q + 1/2⌋ else -⌊-q + 1/2⌋

/-- Rows used by the C7 witness table. -/
def R1 : MonthlyCalculationRow := { a := 700, b := 500, c := 329, f := 100 }

/-- Rows used by the C7 witness table. -/
def R2 : MonthlyCalculationRow := { a := 600, b := 450, c := 329, f := 120 }

/-! ## Supporting lemmas -/

/-! ### General lemmas about the arithmetic helpers -/

/-- On nonnegative values, `make_whole_number` is the floor. -/
lemma make_whole_number_eq_floor (q : ℚ) (hq : 0 ≤ q) :
    make_whole_number q = ⌊q⌋ := by
  rw [make_whole_number, if_pos hq]

/-- Lemma: `pyRound` below the midpoint rounds down. -/
lemma pyRound_eq_low (q : ℚ) (n : ℤ) (h1 : (n : ℚ) ≤ q) (h2 : q < n + 1/2) :
    pyRound q = n := by
  have hf : ⌊q⌋ = n := by
    rw [Int.floor_eq_iff]
    exact ⟨h1, by linarith⟩
  have hc : q - (n : ℚ) < 1/2 := by linarith
  rw [pyRound, hf, if_pos hc]

/-- Lemma: `pyRound` above the midpoint rounds up. -/
lemma pyRound_eq_high (q : ℚ) (n : ℤ) (h1 : (n : ℚ) + 1/2 < q) (h2 : q < n + 1) :
    pyRound q = n + 1 := by
  have hf : ⌊q⌋ = n := by
    rw [Int.floor_eq_iff]
    exact ⟨by linarith, by exact_mod_cast h2⟩
  have h3 : ¬(q - (n : ℚ) < 1/2) := by push_neg; linarith
  have h4 : 1/2 < q - (n : ℚ) := by linarith
  rw [pyRound, hf, if_neg h3, if_pos h4]

/-- Lemma: `pyRound` at an exact midpoint picks the even neighbour. -/
lemma pyRound_eq_half (q : ℚ) (n : ℤ) (h : q = n + 1/2) :
    pyRound q = if n % 2 = 0 then n else n + 1 := by
  have hf : ⌊q⌋ = n := by
    rw [Int.floor_eq_iff]
    subst h
    constructor <;> [linarith; linarith]
  have h1 : ¬(q - (n : ℚ) < 1/2) := by rw [h]; push_neg; linarith
  have h2 : ¬((1:ℚ)/2 < q - (n : ℚ)) := by rw [h]; push_neg; linarith
  rw [pyRound, hf, if_neg h1, if_neg h2]

/-- Lemma: `pyRound` never moves a value by more than half. -/
lemma pyRound_abs_le (q : ℚ) : |(pyRound q : ℚ) - q| ≤ 1/2 := by
  have hl : (⌊q⌋ : ℚ) ≤ q := Int.floor_le q
  have hu : q < ⌊q⌋ + 1 := Int.lt_floor_add_one q
  rw [pyRound]
  split_ifs with h1 h2 h3 <;>
    rw [abs_le] <;> constructor <;> push_cast <;> push_neg at * <;> linarith

/-- When `pyRound` lands exactly half away, the result is even. -/
lemma pyRound_dvd_of_tie (q : ℚ) (h : |(pyRound q : ℚ) - q| = 1/2) :
    2 ∣ pyRound q := by
  have hl : (⌊q⌋ : ℚ) ≤ q := Int.floor_le q
  have hu : q < ⌊q⌋ + 1 := Int.lt_floor_add_one q
  rw [pyRound] at h ⊢
  split_ifs at h ⊢ with h1 h2 h3
  · rw [abs_sub_comm, abs_of_nonneg (by linarith)] at h
    linarith
  · rw [abs_of_nonneg (by push_cast; linarith)] at h
    push_cast at h
    linarith
  · omega
  · push_neg at h1 h2
    have : q - ⌊q⌋ = 1/2 := le_antisymm h2 h1
    omega

/-- A lookup inside the consecutive key range succeeds. -/
lemma lookup_isSome_of_consecutiveFrom {α : Type} (l : List (ℤ × α)) (k p : ℤ)
    (hc : consecutiveFrom k l = true) (h1 : k ≤ p) (h2 : p < k + l.length) :
    (l.lookup p).isSome = true := by
  induction l generalizing k with
  | nil => simp at h2; omega
  | cons hd tl ih =>
      obtain ⟨a, b⟩ := hd
      simp [consecutiveFrom] at hc
      obtain ⟨rfl, hc2⟩ := hc
      by_cases hp : p = a
      · subst hp; simp [List.lookup]
      · rw [List.lookup]
        have hb : (p == a) = false := by simp [hp]
        rw [hb]
        apply ih _ hc2 (by omega)
        simp at h2 ⊢
        omega

/-- A lookup past the consecutive key range fails. -/
lemma lookup_none_of_consecutiveFrom {α : Type} (l : List (ℤ × α)) (k p : ℤ)
    (hc : consecutiveFrom k l = true) (h : k + l.length ≤ p) :
    l.lookup p = none := by
  induction l generalizing k with
  | nil => rfl
  | cons hd tl ih =>
      obtain ⟨a, b⟩ := hd
      simp [consecutiveFrom] at hc
      obtain ⟨rfl, hc2⟩ := hc
      rw [List.lookup]
      have hb : (p == a) = false := by
        simp only [List.length_cons] at h
        simp
        omega
      rw [hb]
      apply ih _ hc2
      simp only [List.length_cons] at h
      omega

/-! ### Evaluated facts about the applicable-figures table -/

set_option maxRecDepth 4000 in
/-- The rate table keys are the consecutive integers 150, 151, ..., 400. -/
lemma figures_consecutive : consecutiveFrom 150 applicable_figures = true := by
  rfl

set_option maxRecDepth 4000 in
/-- The rate table holds 251 entries. -/
lemma figures_length : applicable_figures.length = 251 := by
  simp [applicable_figures, applicable_figures_dict]

set_option maxRecDepth 4000 in
/-- The computed `min(figures.keys())` is 150. -/
lemma min_percent_eq : ApplicableFigures.min_percent applicable_figures = 150 := by
  simp [ApplicableFigures.min_percent, applicable_figures, applicable_figures_dict]

set_option maxRecDepth 4000 in
/-- The computed `max(figures.keys())` is 400. -/
lemma max_percent_eq : ApplicableFigures.max_percent applicable_figures = 400 := by
  simp [ApplicableFigures.max_percent, applicable_figures, applicable_figures_dict]

set_option maxRecDepth 4000 in
/-- The tabulated rate at the minimum key. -/
lemma lookup_figures_150 : applicable_figures.lookup 150 = some 0 := by
  simp [applicable_figures, applicable_figures_dict, List.lookup]

set_option maxRecDepth 4000 in
/-- The tabulated rate at the maximum key. -/
lemma lookup_figures_400 : applicable_figures.lookup 400 = some (850/10000) := by
  simp [applicable_figures, applicable_figures_dict, List.lookup]

/-- Clamping below: any percent at or below 150 gets the minimum key rate. -/
lemma get_figure_low (p : ℤ) (hp : p ≤ 150) :
    ApplicableFigures.get_figure applicable_figures p = 0 := by
  rw [ApplicableFigures.get_figure, min_percent_eq, if_pos hp, lookup_figures_150]
  rfl

/-- Clamping above: any percent above 400 gets the maximum key rate. -/
lemma get_figure_high (p : ℤ) (hp : 400 < p) :
    ApplicableFigures.get_figure applicable_figures p = 850/10000 := by
  rw [ApplicableFigures.get_figure, min_percent_eq, max_percent_eq,
    if_neg (by omega), if_pos hp, lookup_figures_400]
  rfl

/-- Inside the domain the rate is the percent's own table entry, which is
always present. -/
lemma get_figure_mid (p : ℤ) (h1 : 150 < p) (h2 : p ≤ 400) :
    ApplicableFigures.get_figure applicable_figures p =
      (applicable_figures.lookup p).getD 0
    ∧ (applicable_figures.lookup p).isSome = true := by
  constructor
  · rw [ApplicableFigures.get_figure, min_percent_eq, max_percent_eq,
      if_neg (by omega), if_neg (by omega)]
  · apply lookup_isSome_of_consecutiveFrom _ 150 _ figures_consecutive (by omega)
    rw [figures_length]
    omega

/-! ### Lemmas about the monthly-table aggregation loops -/

/-- Lemma: `creditFold` adds up the allowed credits of the populated slots. -/
lemma creditFold_eq (l : List (Option (Option MonthlyCalculationRow))) (acc : ℤ) :
    creditFold l acc =
      acc + ((l.filterMap Option.join).map
        MonthlyCalculationRow.monthly_allowed_tax_credit).sum := by
  induction l generalizing acc with
  | nil => simp [creditFold]
  | cons s rest ih =>
      rcases s with _ | r
      · simp [creditFold, ih]
      · rcases r with _ | r
        · simp [creditFold, ih]
        · simp [creditFold, ih]
          ring

/-- When no slot was explicitly supplied as `None`, `advanceFold` adds up
the advance payments of the populated slots. -/
lemma advanceFold_eq (l : List (Option (Option MonthlyCalculationRow))) (acc : ℤ)
    (h : ∀ s ∈ l, s ≠ some none) :
    advanceFold l acc =
      some (acc + ((l.filterMap Option.join).map MonthlyCalculationRow.f).sum) := by
  induction l generalizing acc with
  | nil => simp [advanceFold]
  | cons s rest ih =>
      have hrest : ∀ s ∈ rest, s ≠ some none := fun x hx => h x (List.mem_cons_of_mem _ hx)
      rcases s with _ | r
      · simp [advanceFold, ih _ hrest]
      · rcases r with _ | r
        · exact absurd rfl (h (some none) (List.mem_cons_self _ _))
        · simp [advanceFold, ih _ hrest]
          ring

/-- A slot explicitly supplied as `None` makes `advanceFold` raise. -/
lemma advanceFold_none (l : List (Option (Option MonthlyCalculationRow))) (acc : ℤ)
    (h : some none ∈ l) : advanceFold l acc = none := by
  induction l generalizing acc with
  | nil => simp at h
  | cons s rest ih =>
      rcases s with _ | r
      · rw [advanceFold]
        exact ih _ (by simpa using h)
      · rcases r with _ | r
        · rfl
        · rw [advanceFold]
          apply ih
          rcases List.mem_cons.mp h with h1 | h1
          · exact absurd h1 (by simp)
          · exact h1

/-- Registry resolution succeeds and yields the category's unique table. -/
lemma get_state_table_eq (s : StateOfResidenceEnum) :
    PovertyLines.get_state_table poverty_lines s =
      some { state_of_residence := s, values := state_values s,
             additional_person_extra := state_extra s } := by
  cases s <;> rfl

/-- Every tabulated family-size dictionary has the consecutive keys 1..8. -/
lemma state_values_consecutive (s : StateOfResidenceEnum) :
    consecutiveFrom 1 (state_values s) = true := by
  cases s <;> rfl

/-- Every tabulated family-size dictionary has eight entries. -/
lemma state_values_length (s : StateOfResidenceEnum) :
    (state_values s).length = 8 := by
  cases s <;> rfl

/-- The largest tabulated family size is 8 in every category. -/
lemma state_values_max (s : StateOfResidenceEnum) :
    (((state_values s).map Prod.fst).max?).getD 0 = 8 := by
  cases s <;> decide

lemma F1_household_income : F1.household_income = 77194 := rfl

lemma F1_poverty_line : F1.poverty_line = 27750 := rfl

lemma F1_percent : F1.percent_of_poverty_line = 278 := by
  rw [Form8962.percent_of_poverty_line, F1_household_income, F1_poverty_line,
    make_whole_number]
  norm_num

set_option maxRecDepth 4000 in
lemma F1_figure : F1.applicable_figure = 512/10000 := by
  rw [Form8962.applicable_figure, F1_percent,
    (get_figure_mid 278 (by norm_num) (by norm_num)).1]
  simp [applicable_figures, applicable_figures_dict, List.lookup]

lemma F1_annual : F1.annual_contribution = 3952 := by
  rw [Form8962.annual_contribution, F1_household_income, F1_figure]
  apply pyRound_eq_low <;> norm_num

lemma F1_monthly : F1.monthly_contribution = 329 := by
  rw [Form8962.monthly_contribution, F1_annual]
  apply pyRound_eq_low <;> norm_num

lemma F3_household_income : F3.household_income = 21700 := rfl

lemma F3_poverty_line : F3.poverty_line = 13590 := rfl

lemma F3_percent : F3.percent_of_poverty_line = 159 := by
  rw [Form8962.percent_of_poverty_line, F3_household_income, F3_poverty_line,
    make_whole_number]
  norm_num

set_option maxRecDepth 4000 in
lemma F3_figure : F3.applicable_figure = 36/10000 := by
  rw [Form8962.applicable_figure, F3_percent,
    (get_figure_mid 159 (by norm_num) (by norm_num)).1]
  simp [applicable_figures, applicable_figures_dict, List.lookup]

lemma F3_annual : F3.annual_contribution = 78 := by
  rw [Form8962.annual_contribution, F3_household_income, F3_figure]
  apply pyRound_eq_low <;> norm_num

lemma F3_monthly : F3.monthly_contribution = 6 := by
  rw [Form8962.monthly_contribution, F3_annual,
    pyRound_eq_half _ 6 (by norm_num)]
  norm_num

lemma FA_household_income : FA.household_income = 42152 := rfl

lemma FA_poverty_line : FA.poverty_line = 13590 := rfl

lemma FA_percent : FA.percent_of_poverty_line = 310 := by
  rw [Form8962.percent_of_poverty_line, FA_household_income, FA_poverty_line,
    make_whole_number]
  norm_num

set_option maxRecDepth 4000 in
lemma FA_figure : FA.applicable_figure = 625/10000 := by
  rw [Form8962.applicable_figure, FA_percent,
    (get_figure_mid 310 (by norm_num) (by norm_num)).1]
  simp [applicable_figures, applicable_figures_dict, List.lookup]

lemma FA_annual : FA.annual_contribution = 2634 := by
  rw [Form8962.annual_contribution, FA_household_income, FA_figure,
    pyRound_eq_half _ 2634 (by norm_num)]
  norm_num

lemma FS_household_income : FS.household_income = 200000 := rfl

lemma FS_poverty_line : FS.poverty_line = 13590 := rfl

/-- Registry lookup reduces to the category's own table lookup. -/
lemma get_poverty_rate_eq (s : StateOfResidenceEnum) (n : ℤ) :
    PovertyLines.get_poverty_rate poverty_lines s n =
      some (PovertyLineTable.get_poverty_rate
        { state_of_residence := s, values := state_values s,
          additional_person_extra := state_extra s } n) := by
  rw [PovertyLines.get_poverty_rate, get_state_table_eq, Option.map_some']

/-! ## Claim theorems -/

/-! ### Claims -/

/-- Claim C1: for a form with tax family size 4, contiguous-states
residency, modified AGI 77194 and no dependents' AGI, the derivation chain
yields poverty_line 27750, percent_of_poverty_line 278, applicable_figure
0.0512, annual_contribution 3952 and monthly_contribution 329. -/
theorem C1_end_to_end_scenario :
    F1.poverty_line = 27750
    ∧ F1.percent_of_poverty_line = 278
    ∧ F1.applicable_figure = 512/10000
    ∧ F1.annual_contribution = 3952
    ∧ F1.monthly_contribution = 329 :=
  ⟨F1_poverty_line, F1_percent, F1_figure, F1_annual, F1_monthly⟩

/-- Claim C2 as stated is false: on the monthly path (`line_10` false,
monthly table present) the form-level total advance payment does not follow
the monthly table when the optional `annual_advance_payment` was also
supplied — it returns the supplied annual value instead. -/
theorem C2_counterexample :
    F2.line_10 = false
    ∧ F2.monthly_calculation = some T2
    ∧ MonthlyCalculationTable.total_advance_payment T2 = some 100
    ∧ Form8962.total_advance_payment F2 = some 500
    ∧ Form8962.total_advance_payment F2 ≠ MonthlyCalculationTable.total_advance_payment T2 :=
  ⟨rfl, rfl, rfl, rfl, by decide⟩

/-- Claim C2 amended: with the annual-path flag false and a monthly table
present, total_tax_credit always equals the monthly table's total allowed
credit regardless of which optional annual fields were supplied, and
total_advance_payment equals the monthly table's total advance payment
only when `annual_advance_payment` is absent; when it was supplied, the
supplied value is returned instead. -/
theorem C2_amended_monthly_path_totals :
    ∀ (f : Form8962) (t : MonthlyCalculationTable),
      f.line_10 = false → f.monthly_calculation = some t →
      (f.total_tax_credit = some t.total_tax_credit
       ∧ (f.annual_advance_payment = none →
           f.total_advance_payment = t.total_advance_payment)
       ∧ (∀ v : ℤ, f.annual_advance_payment = some v →
           f.total_advance_payment = some v)) := by
  intro f t h10 hmc
  have hcredit : f.annual_allowed_tax_credit = some none := by
    rw [Form8962.annual_allowed_tax_credit, h10]
    simp
  refine ⟨?_, ?_, ?_⟩
  · simp [Form8962.total_tax_credit, hcredit, hmc]
  · intro ha
    simp [Form8962.total_advance_payment, ha, hmc]
  · intro v hv
    simp [Form8962.total_advance_payment, hv]

/-- Witness for C2: on the clean monthly form `F2b` both totals follow the
table, and on `F2` (stray annual advance input of 500) the amended clause
returns the supplied 500. -/
theorem C2_amended_monthly_path_totals_witness :
    Form8962.total_tax_credit F2b = some (MonthlyCalculationTable.total_tax_credit T2)
    ∧ Form8962.total_advance_payment F2b = MonthlyCalculationTable.total_advance_payment T2
    ∧ Form8962.total_advance_payment F2 = some 500 :=
  ⟨(C2_amended_monthly_path_totals F2b T2 rfl rfl).1,
   (C2_amended_monthly_path_totals F2b T2 rfl rfl).2.1 rfl,
   (C2_amended_monthly_path_totals F2 T2 rfl rfl).2.2 500 rfl⟩

/-- Claim C3 as stated is false: the contributions are not rounded half-up
(half away from zero). On `F3` the annual contribution is 78, whose
twelfth is the exact half 6.5: half-up rounding would give 7, but the code
(Python `round`, ties to even) gives 6. -/
theorem C3_counterexample :
    F3.annual_contribution = 78
    ∧ F3.monthly_contribution = 6
    ∧ round_half_up ((F3.annual_contribution : ℚ) / 12) = 7
    ∧ F3.monthly_contribution ≠ round_half_up ((F3.annual_contribution : ℚ) / 12) := by
  have h7 : round_half_up ((F3.annual_contribution : ℚ) / 12) = 7 := by
    rw [F3_annual, round_half_up, if_pos (by norm_num), Int.floor_eq_iff]
    norm_num
  exact ⟨F3_annual, F3_monthly, h7, by rw [F3_monthly, h7]; norm_num⟩

/-- Claim C3 amended: annual_contribution is household_income *
applicable_figure rounded to the nearest whole dollar with ties to even
(Python's `round`), and monthly_contribution is annual_contribution / 12
rounded the same way: each result is within half a dollar of the exact
product/quotient, and on an exact .5 fraction the result is the even
neighbour (so annual contribution 78 gives monthly contribution 6, not 7). -/
theorem C3_amended_round_half_to_even :
    ∀ f : Form8962,
      |(f.annual_contribution : ℚ) - (f.household_income : ℚ) * f.applicable_figure| ≤ 1/2
      ∧ (|(f.annual_contribution : ℚ) - (f.household_income : ℚ) * f.applicable_figure| = 1/2 →
          2 ∣ f.annual_contribution)
      ∧ |(f.monthly_contribution : ℚ) - (f.annual_contribution : ℚ) / 12| ≤ 1/2
      ∧ (|(f.monthly_contribution : ℚ) - (f.annual_contribution : ℚ) / 12| = 1/2 →
          2 ∣ f.monthly_contribution) := by
  intro f
  refine ⟨?_, ?_, ?_, ?_⟩
  · rw [Form8962.annual_contribution]
    exact pyRound_abs_le _
  · rw [Form8962.annual_contribution]
    exact fun h => pyRound_dvd_of_tie _ h
  · rw [Form8962.monthly_contribution]
    exact pyRound_abs_le _
  · rw [Form8962.monthly_contribution]
    exact fun h => pyRound_dvd_of_tie _ h

/-- Witness for C3: both tie hypotheses are realisable — `FA` has an exact
product tie (2634.5 → 2634) and `F3` an exact quotient tie (6.5 → 6); both
results are even. -/
theorem C3_amended_round_half_to_even_witness :
    2 ∣ FA.annual_contribution ∧ 2 ∣ F3.monthly_contribution := by
  constructor
  · apply (C3_amended_round_half_to_even FA).2.1
    rw [FA_annual, FA_household_income, FA_figure, abs_sub_comm,
      abs_of_nonneg (by push_cast; norm_num)]
    push_cast
    norm_num
  · apply (C3_amended_round_half_to_even F3).2.2.2
    rw [F3_monthly, F3_annual, abs_sub_comm,
      abs_of_nonneg (by push_cast; norm_num)]
    push_cast
    norm_num

/-- Claim C4: percent_of_poverty_line truncates the ratio times 100 (never
rounds up) whenever the ratio is at most 4.0, and is the sentinel 401 for
every ratio strictly greater than 4.0 regardless of magnitude. -/
theorem C4_percent_truncation_and_sentinel :
    ∀ f : Form8962,
      (4 < (f.household_income : ℚ) / (f.poverty_line : ℚ) →
        f.percent_of_poverty_line = 401)
      ∧ (0 ≤ (f.household_income : ℚ) / (f.poverty_line : ℚ) →
         (f.household_income : ℚ) / (f.poverty_line : ℚ) ≤ 4 →
         f.percent_of_poverty_line =
           ⌊(f.household_income : ℚ) / (f.poverty_line : ℚ) * 100⌋) := by
  intro f
  constructor
  · intro h
    simp only [Form8962.percent_of_poverty_line]
    rw [if_neg (not_le.mpr h)]
  · intro h0 h4
    simp only [Form8962.percent_of_poverty_line]
    rw [if_pos h4, make_whole_number_eq_floor _ (mul_nonneg h0 (by norm_num))]

/-- Witness for C4: the sentinel fires on `FS` (ratio ≈ 14.7) and the
truncation branch computes `F1`'s percent as a floor. -/
theorem C4_percent_truncation_and_sentinel_witness :
    FS.percent_of_poverty_line = 401
    ∧ F1.percent_of_poverty_line =
        ⌊(F1.household_income : ℚ) / (F1.poverty_line : ℚ) * 100⌋ := by
  constructor
  · exact (C4_percent_truncation_and_sentinel FS).1
      (by rw [FS_household_income, FS_poverty_line]; norm_num)
  · exact (C4_percent_truncation_and_sentinel F1).2
      (by rw [F1_household_income, F1_poverty_line]; norm_num)
      (by rw [F1_household_income, F1_poverty_line]; norm_num)

/-- Claim C5 as stated is false: the form `F5` has tax family size 0 and
the annual path selected with all three annual figures missing, yet its
construction succeeds (the only construction-time validator is the SSN
pattern). -/
theorem C5_counterexample :
    Form8962.construct F5 = some F5
    ∧ F5.tax_family_size < 1
    ∧ F5.line_10 = true
    ∧ F5.annual_enrollment_premiums = none
    ∧ F5.annual_slcsp_premium = none
    ∧ F5.annual_advance_payment = none :=
  ⟨rfl, by decide, rfl, rfl, rfl, rfl⟩

/-- Claim C5 amended: construction succeeds exactly when the SSN matches
the 9-digit pattern — household size and path completeness are not checked
at construction. Missing annual figures on the annual path instead surface
later, as a failed `assert` (an exception, `none`) when the annual allowed
credit is read; a missing monthly table similarly fails only when the
total advance payment is read. -/
theorem C5_amended_construction_validation :
    ∀ f : Form8962,
      (Form8962.construct f).isSome = ssn_pattern_ok f.ssn.secret_value
      ∧ (f.line_10 = true →
          (f.annual_slcsp_premium = none ∨ f.annual_enrollment_premiums = none) →
          f.annual_allowed_tax_credit = none)
      ∧ (f.annual_advance_payment = none → f.monthly_calculation = none →
          f.total_advance_payment = none) := by
  intro f
  refine ⟨?_, ?_, ?_⟩
  · by_cases h : ssn_pattern_ok f.ssn.secret_value <;>
      simp [Form8962.construct, h]
  · intro h10 hmiss
    rcases hmiss with hs | he
    · have hassist : f.annual_max_premium_assist = none := by
        rcases h11 : f.line_11_c with _ | c <;>
          simp [Form8962.annual_max_premium_assist, h10, hs, h11]
      rcases he2 : f.annual_enrollment_premiums with _ | e <;>
        simp [Form8962.annual_allowed_tax_credit, h10, hassist, he2]
    · simp [Form8962.annual_allowed_tax_credit, h10, he]
  · intro ha hm
    simp [Form8962.total_advance_payment, ha, hm]

/-- Witness for C5: on `F5` (annual path, annual figures missing, no
monthly table) the deferred failures are exceptions at derivation time. -/
theorem C5_amended_construction_validation_witness :
    F5.annual_allowed_tax_credit = none
    ∧ Form8962.total_advance_payment F5 = none :=
  ⟨(C5_amended_construction_validation F5).2.1 rfl (Or.inl rfl),
   (C5_amended_construction_validation F5).2.2 rfl rfl⟩

/-- Claim C6: when both totals compute, the net result is a trichotomy on
credit versus advance — strictly greater yields the (positive) difference,
equality yields zero, strictly less yields the absent outcome (Python
`None`), and a returned dollar amount is never negative. -/
theorem C6_net_result_trichotomy :
    ∀ (f : Form8962) (c a : ℤ),
      f.total_tax_credit = some c → f.total_advance_payment = some a →
      ((a < c → f.net_tax_credit = some (some (c - a)) ∧ 0 < c - a)
       ∧ (c = a → f.net_tax_credit = some (some 0))
       ∧ (c < a → f.net_tax_credit = some none)
       ∧ (∀ v : ℤ, f.net_tax_credit = some (some v) → 0 ≤ v)) := by
  intro f c a hc ha
  have hnet : f.net_tax_credit =
      (if a < c then some (some (c - a))
       else if c = a then some (some 0) else some none) := by
    simp [Form8962.net_tax_credit, hc, ha]
  refine ⟨?_, ?_, ?_, ?_⟩
  · intro h
    rw [hnet, if_pos h]
    exact ⟨rfl, by omega⟩
  · intro h
    rw [hnet, if_neg (by omega), if_pos h]
  · intro h
    rw [hnet, if_neg (by omega), if_neg (by omega)]
  · intro v hv
    rw [hnet] at hv
    split_ifs at hv with h1 h2
    · simp at hv
      omega
    · simp at hv
      omega
    · simp at hv

/-- Witness for C6: the three branches realised on the monthly-path forms
`G1` (1000 vs 600), `G2` (800 vs 800) and `G3` (400 vs 900). -/
theorem C6_net_result_trichotomy_witness :
    Form8962.net_tax_credit G1 = some (some (1000 - 600))
    ∧ Form8962.net_tax_credit G2 = some (some 0)
    ∧ Form8962.net_tax_credit G3 = some none :=
  ⟨((C6_net_result_trichotomy G1 1000 600 rfl rfl).1 (by norm_num)).1,
   (C6_net_result_trichotomy G2 800 800 rfl rfl).2.1 rfl,
   (C6_net_result_trichotomy G3 400 900 rfl rfl).2.2.1 (by norm_num)⟩

/-- Claim C7 as stated is false: on the table `T7`, whose only supplied
slot was explicitly given as `None`, no slot is populated, yet
total_advance_payment raises (`None.f`, an `AttributeError`) instead of
summing to zero as the claim requires — while total_tax_credit does skip
the slot and totals zero. -/
theorem C7_counterexample :
    T7.slots.filterMap Option.join = []
    ∧ MonthlyCalculationTable.total_tax_credit T7 = 0
    ∧ MonthlyCalculationTable.total_advance_payment T7 = none :=
  ⟨rfl, rfl, rfl⟩

/-- Claim C7 amended: total_tax_credit sums the allowed credits of the
populated slots (an empty table totals zero); total_advance_payment does
the same, but only for tables in which no supplied slot is an explicit
`None` — such a slot makes it raise instead. Both aggregations are
order-independent: permuting the populated rows leaves each total
unchanged. -/
theorem C7_amended_monthly_totals :
    ∀ t : MonthlyCalculationTable,
      t.total_tax_credit =
        ((t.slots.filterMap Option.join).map
          MonthlyCalculationRow.monthly_allowed_tax_credit).sum
      ∧ ((∀ s ∈ t.slots, s ≠ some none) →
          t.total_advance_payment =
            some (((t.slots.filterMap Option.join).map MonthlyCalculationRow.f).sum))
      ∧ (some none ∈ t.slots → t.total_advance_payment = none)
      ∧ (∀ l₁ l₂ : List MonthlyCalculationRow, l₁.Perm l₂ →
          (l₁.map MonthlyCalculationRow.monthly_allowed_tax_credit).sum =
            (l₂.map MonthlyCalculationRow.monthly_allowed_tax_credit).sum
          ∧ (l₁.map MonthlyCalculationRow.f).sum =
            (l₂.map MonthlyCalculationRow.f).sum) := by
  intro t
  refine ⟨?_, ?_, ?_, ?_⟩
  · rw [MonthlyCalculationTable.total_tax_credit, creditFold_eq, zero_add]
  · intro h
    rw [MonthlyCalculationTable.total_advance_payment, advanceFold_eq _ _ h, zero_add]
  · intro h
    rw [MonthlyCalculationTable.total_advance_payment, advanceFold_none _ _ h]
  · intro l₁ l₂ hp
    exact ⟨(hp.map _).sum_eq, (hp.map _).sum_eq⟩

/-- Witness for C7: the populated table `T7b` sums normally, the
explicit-`None` table `T7` raises, and swapping two rows preserves the
credit total. -/
theorem C7_amended_monthly_totals_witness :
    MonthlyCalculationTable.total_advance_payment T7b =
      some (((T7b.slots.filterMap Option.join).map MonthlyCalculationRow.f).sum)
    ∧ MonthlyCalculationTable.total_advance_payment T7 = none
    ∧ ([R1, R2].map MonthlyCalculationRow.monthly_allowed_tax_credit).sum =
        ([R2, R1].map MonthlyCalculationRow.monthly_allowed_tax_credit).sum :=
  ⟨(C7_amended_monthly_totals T7b).2.1 (by decide),
   (C7_amended_monthly_totals T7).2.2.1 (by decide),
   ((C7_amended_monthly_totals T7).2.2.2 [R1, R2] [R2, R1]
     (List.Perm.swap R2 R1 [])).1⟩

/-- Claim C8: for every residency category, household sizes 1..8 resolve to
their own tabulated poverty line (the entry always exists), and every size
8+k with k>0 extrapolates linearly from the size-8 entry using the
category's per-extra-person increment. -/
theorem C8_poverty_line_lookup :
    ∀ (s : StateOfResidenceEnum) (n : ℤ),
      (1 ≤ n → n ≤ 8 →
        PovertyLines.get_poverty_rate poverty_lines s n =
          some (((state_values s).lookup n).getD 0)
        ∧ ((state_values s).lookup n).isSome = true)
      ∧ (∀ k : ℤ, 0 < k →
        PovertyLines.get_poverty_rate poverty_lines s (8 + k) =
          some (((state_values s).lookup 8).getD 0 + k * state_extra s)) := by
  intro s n
  constructor
  · intro h1 h2
    have hsome : ((state_values s).lookup n).isSome = true :=
      lookup_isSome_of_consecutiveFrom _ 1 n (state_values_consecutive s) h1
        (by rw [state_values_length]; omega)
    refine ⟨?_, hsome⟩
    rcases Option.isSome_iff_exists.mp hsome with ⟨v, hv⟩
    rw [get_poverty_rate_eq]
    simp [PovertyLineTable.get_poverty_rate, hv]
  · intro k hk
    have hnone : (state_values s).lookup (8 + k) = none :=
      lookup_none_of_consecutiveFrom _ 1 (8 + k) (state_values_consecutive s)
        (by rw [state_values_length]; omega)
    rw [get_poverty_rate_eq]
    simp [PovertyLineTable.get_poverty_rate, hnone, state_values_max]

/-- Witness for C8: Alaska family of three reads the table (28790), and a
contiguous-states family of ten extrapolates to 46630 + 2 * 4720 = 56070. -/
theorem C8_poverty_line_lookup_witness :
    PovertyLines.get_poverty_rate poverty_lines .ALASKA 3 = some 28790
    ∧ PovertyLines.get_poverty_rate poverty_lines .CONTIGUOUS_48_AND_DC 10 = some 56070 := by
  constructor
  · have h := ((C8_poverty_line_lookup .ALASKA 3).1 (by norm_num) (by norm_num)).1
    simpa [state_values, ALASKA, List.lookup] using h
  · have h := (C8_poverty_line_lookup .CONTIGUOUS_48_AND_DC 0).2 2 (by norm_num)
    norm_num [state_values, state_extra, CONTIGUOUS_48_AND_DC,
      CONTIGUOUS_48_AND_DC_EXTRA, List.lookup] at h
    convert h using 2

/-- Claim C9: the applicable-figure lookup clamps to the table's bounded
domain — every percent at or below the minimum key 150 gets the minimum
key's rate 0.0000, every percent above the maximum key 400 (the sentinel
401 included) gets the maximum key's rate 0.0850, and every percent inside
the domain maps to its own (always present) entry with no interpolation. -/
theorem C9_rate_clamping :
    ∀ p : ℤ,
      (p ≤ 150 →
        ApplicableFigures.get_figure applicable_figures p =
          ApplicableFigures.get_figure applicable_figures 150
        ∧ ApplicableFigures.get_figure applicable_figures p = 0)
      ∧ (400 < p →
        ApplicableFigures.get_figure applicable_figures p =
          ApplicableFigures.get_figure applicable_figures 401
        ∧ ApplicableFigures.get_figure applicable_figures p = 850/10000)
      ∧ (150 < p → p ≤ 400 →
        ApplicableFigures.get_figure applicable_figures p =
          (applicable_figures.lookup p).getD 0
        ∧ (applicable_figures.lookup p).isSome = true) := by
  intro p
  refine ⟨?_, ?_, ?_⟩
  · intro h
    exact ⟨by rw [get_figure_low p h, get_figure_low 150 (by norm_num)],
           get_figure_low p h⟩
  · intro h
    exact ⟨by rw [get_figure_high p h, get_figure_high 401 (by norm_num)],
           get_figure_high p h⟩
  · exact get_figure_mid p

/-- Witness for C9: lookup(0) clamps to rate 0, lookup(500) clamps to rate
0.0850, and lookup(278) reads its own entry. -/
theorem C9_rate_clamping_witness :
    ApplicableFigures.get_figure applicable_figures 0 = 0
    ∧ ApplicableFigures.get_figure applicable_figures 500 = 850/10000
    ∧ ApplicableFigures.get_figure applicable_figures 278 =
        (applicable_figures.lookup 278).getD 0 :=
  ⟨((C9_rate_clamping 0).1 (by norm_num)).2,
   ((C9_rate_clamping 500).2.1 (by norm_num)).2,
   ((C9_rate_clamping 278).2.2 (by norm_num) (by norm_num)).1⟩

/-- Claim C10: the displayed tax identifier of any form is the single fixed
mask string — any two forms display identical identifiers regardless of
their underlying digits, and the mask contains no digit at all. -/
theorem C10_ssn_masking :
    ∀ f g : Form8962,
      f.ssn.display = g.ssn.display
      ∧ f.ssn.display = "***-**-****"
      ∧ (f.ssn.display.toList.all fun ch => !ch.isDigit) = true := by
  intro f g
  refine ⟨rfl, rfl, ?_⟩
  show (("***-**-****").toList.all fun ch => !ch.isDigit) = true
  decide

end IncomeTax
